import Mathlib

/-
Verification of the param_track parameter-tracking state machine
(src/param_track/param_track.py, with the value hook of
src/param_track/param_track_units.py).

The embedding models the `Parameters` class: the ordered mapping
`_internal_pardict` from parameter name to declared-type descriptor, the
parameter attributes themselves (the "values"), the reserved mode flags,
and the five mutation entry points `_pt_set` (via `ptset`), `ptadd`,
`ptsu`, `ptinit`, `ptdel`, plus the read path `ptget`.

Modelling conventions:
  * Python values are restricted to the finite value universe `PVal`
    (None, bool, int, str), which covers every value the claims use.
    Within this universe the `Units.setattr` hook of
    param_track_units.py is an exact passthrough: `use_units` starts
    False (`Units.__init__`), and `handle_units` can only install a
    unit handler from a dict or a file, neither of which is expressible
    in this value universe, so `valid_unit_handler` stays False and
    `Units.setattr` always takes its passthrough branch
    (`self.val = val`).  The hook still computes
    `self.type = None if self.val is None else type(self.val)`, which
    `_pt_set`/`ptadd`/`ptsu` copy into `_internal_pardict`; this is the
    `unitsType` function below.
  * A declared-type descriptor (`PDesc`) is either a real type object
    (`PDesc.ty`), the Python `None` object itself (stored when the
    committed value was None, since `__ptu__.type` is then None), or
    the instance's own class `_internal_self_type`, the UNTYPED
    sentinel written by `ptinit`.
  * The log sink is modelled as the list of emitted events; each event
    constructor corresponds to one `__log__.post` call site.
  * Exceptions are modelled with `Option PTErr` in each result: `some e`
    means the Python call raised at that point, and the returned state
    is the state at the moment of the raise (Python performs no
    rollback).  Batch processing stops at the first raise, keeping the
    mutations of the earlier pairs, exactly like the Python loops.
  * `handle_units` on a string argument checks `os.path.isfile`; the
    file system is outside this embedding and is modelled as empty, so
    that branch raises FileNotFoundError.  No claim depends on it.
-/

namespace ParamTrack

/-- A Python value, restricted to the kinds the claims exercise:
None, bool, int and str. -/
inductive PVal where
  | vnone
  | vbool (b : Bool)
  | vint (n : Int)
  | vstr (s : String)
deriving DecidableEq, Repr

/-- A Python type object, i.e. the possible results of `type(val)` for
values in `PVal`.  `type(None)` is `NoneType`. -/
inductive PType where
  | noneType
  | boolT
  | intT
  | strT
deriving DecidableEq, Repr

/-- Python's `type(val)` on the modelled value universe. -/
def pytype : PVal → PType
  | PVal.vnone => PType.noneType
  | PVal.vbool _ => PType.boolT
  | PVal.vint _ => PType.intT
  | PVal.vstr _ => PType.strT

/-- A declared-type descriptor stored in `_internal_pardict`:
either the UNTYPED sentinel `_internal_self_type` (written by ptinit),
the Python `None` object itself (written when the committed value was
None, because `Units.setattr` sets `self.type = None` then), or a real
type object. -/
inductive PDesc where
  | selfType
  | pnone
  | ty (t : PType)
deriving DecidableEq, Repr

/-- The descriptor `copy(__ptu__.type)` recorded after the hook ran on
value `v`: `None if v is None else type(v)`
(param_track_units.py line 170). -/
def unitsType (v : PVal) : PDesc :=
  if v = PVal.vnone then PDesc.pnone else PDesc.ty (pytype v)

/-- Python truthiness `bool(v)` on the modelled value universe. -/
def truthy : PVal → Bool
  | PVal.vnone => false
  | PVal.vbool b => b
  | PVal.vint n => n != 0
  | PVal.vstr s => s ≠ ""

/-- Key list of an ordered association list (the order of a Python
dict's keys). -/
def keysOf {α : Type} (m : List (String × α)) : List String :=
  m.map Prod.fst

/-- Lookup in an ordered association list, like `dict.get`. -/
def alookup {α : Type} : List (String × α) → String → Option α
  | [], _ => none
  | (k1, v) :: rest, k => if k1 = k then some v else alookup rest k

/-- Python dict assignment `m[k] = v`: update in place if the key is
present, else append at the end (insertion order). -/
def aset {α : Type} : List (String × α) → String → α → List (String × α)
  | [], k, v => [(k, v)]
  | (k1, v1) :: rest, k, v =>
    if k1 = k then (k, v) :: rest else (k1, v1) :: aset rest k v

/-- Python `del m[k]` / `dict.pop(k)` on the key list: drop the entry. -/
def aerase {α : Type} (m : List (String × α)) (k : String) : List (String × α) :=
  m.filter (fun p => p.1 ≠ k)

/-- One event per `__log__.post` call site of the modelled methods. -/
inductive Event where
  | internalIgnoredTrySu (k : String)
  | settingExisting (k : String)
  | typeInitialized (k : String)
  | typeRetain (k : String)
  | typeReset (k : String)
  | unknownIgnoredUseAdd (k : String)
  | newParam (k : String)
  | addInternalIgnored (k : String)
  | replacing (k : String)
  | adding (k : String)
  | suSetVerbose
  | suSetNote
  | suSetUnits
  | suIgnoredMethod (k : String)
  | suIgnoredPrivate (k : String)
  | suFlagNotBool (k : String)
  | suSetFlag (k : String)
  | suInitParam (k : String)
  | suReplaceSame (k : String)
  | suReplaceDiff (k : String)
  | suAdd (k : String)
  | delInternalIgnored (k : String)
  | deleted (k : String)
  | delUnknownIgnored (k : String)
  | initFrom
deriving DecidableEq, Repr

/-- The exceptions the modelled code can raise.  `typeMismatch` and
`unknownParameter` and `parameterNotFound` are the ParameterTrackError
raise sites of param_track.py; `attributeError` models a Python
AttributeError (undefined attribute access); `fileNotFound` models the
FileNotFoundError of `Units.handle_units` on a non-file string. -/
inductive PTErr where
  | typeMismatch (k : String) (oldDesc : PDesc) (newDesc : PDesc)
  | unknownParameter (k : String)
  | parameterNotFound (k : String)
  | attributeError (k : String)
  | fileNotFound (k : String)
deriving DecidableEq, Repr

/-- The state of one `Parameters` instance: the tracked attributes
(`values`), the declared-type mapping `_internal_pardict` (`pardict`),
the reserved mode flags, the `use_units` field of the module-level
`Units` object, and `__pt_init_flag__`, which is `none` while the
attribute has never been assigned (it is only ever assigned inside
`ptinit`). -/
structure PTState where
  values : List (String × PVal)
  pardict : List (String × PDesc)
  ptnote : Bool
  ptstrict : Bool
  pterr : Bool
  ptverbose : Bool
  pttype : Bool
  pttypeerr : Bool
  ptsetunits : Bool
  useUnits : Bool
  initFlag : Option Bool
deriving DecidableEq, Repr

/-- `Parameters._internal_only_ptvar` (param_track.py lines 22-23). -/
def internalOnlyPtvar : List String :=
  ["ptnote", "ptstrict", "pterr", "ptverbose", "pttype", "pttypeerr", "ptsetunits",
   "_internal_self_type", "_internal_pardict"]

/-- `Parameters._internal_only_ptdef` (param_track.py lines 24-25). -/
def internalOnlyPtdef : List String :=
  ["_pt_set", "ptinit", "ptset", "ptget", "ptadd", "ptdel", "ptshow", "ptsu", "ptlog",
   "pt_to_dict", "pt_to_csv", "pt_from", "_pt_from_csv"]

/-- One iteration of the `_pt_set` loop (param_track.py lines 151-177).
The value commit `__ptu__.setattr(self, key, val)` happens before the
type reconciliation, so even the raising branch has already stored the
new value.  The mismatch test of line 160 compares the raw Python
`type(val)` against the stored descriptor. -/
def ptsetStep (s : PTState) (k : String) (v : PVal) :
    PTState × List Event × Option PTErr :=
  if k ∈ internalOnlyPtvar ∨ k ∈ internalOnlyPtdef then
    (s, [Event.internalIgnoredTrySu k], none)
  else
    match alookup s.pardict k with
    | some d =>
      if d = PDesc.selfType then
        ({s with values := aset s.values k v, pardict := aset s.pardict k (unitsType v)},
         [Event.settingExisting k, Event.typeInitialized k], none)
      else if PDesc.ty (pytype v) ≠ d then
        if s.pttype then
          if s.pttypeerr then
            ({s with values := aset s.values k v}, [Event.settingExisting k],
             some (PTErr.typeMismatch k d (unitsType v)))
          else
            ({s with values := aset s.values k v},
             [Event.settingExisting k, Event.typeRetain k], none)
        else
          ({s with values := aset s.values k v, pardict := aset s.pardict k (unitsType v)},
           [Event.settingExisting k, Event.typeReset k], none)
      else
        ({s with values := aset s.values k v}, [Event.settingExisting k], none)
    | none =>
      if s.ptstrict then
        if s.pterr then (s, [], some (PTErr.unknownParameter k))
        else (s, [Event.unknownIgnoredUseAdd k], none)
      else
        ({s with values := aset s.values k v, pardict := aset s.pardict k (unitsType v)},
         [Event.newParam k], none)

/-- One iteration of the `ptadd` loop (param_track.py lines 192-203):
reserved names are ignored; otherwise the value and its type are
committed unconditionally, with a replacing/adding event. -/
def ptaddStep (s : PTState) (k : String) (v : PVal) :
    PTState × List Event × Option PTErr :=
  if k ∈ internalOnlyPtvar ∨ k ∈ internalOnlyPtdef then
    (s, [Event.addInternalIgnored k], none)
  else
    match alookup s.pardict k with
    | some _ =>
      ({s with values := aset s.values k v, pardict := aset s.pardict k (unitsType v)},
       [Event.replacing k], none)
    | none =>
      ({s with values := aset s.values k v, pardict := aset s.pardict k (unitsType v)},
       [Event.adding k], none)

/-- `setattr(self, key, val)` for the public reserved flag names in the
`ptsu` loop (param_track.py line 239).  Only `ptstrict`, `pterr`,
`pttype`, `pttypeerr` can actually reach that line, because the other
three public flag names are popped before the loop; the function is
nonetheless total on the public flag names. -/
def setPtFlag (s : PTState) (k : String) (b : Bool) : PTState :=
  if k = "ptstrict" then {s with ptstrict := b}
  else if k = "pterr" then {s with pterr := b}
  else if k = "pttype" then {s with pttype := b}
  else if k = "pttypeerr" then {s with pttypeerr := b}
  else if k = "ptverbose" then {s with ptverbose := b}
  else if k = "ptnote" then {s with ptnote := b}
  else if k = "ptsetunits" then {s with ptsetunits := b}
  else s

/-- `Units.handle_units` (param_track_units.py lines 103-116) restricted
to the modelled value universe: bool/None/int set `use_units` to the
truthiness of the argument; a string is checked against the file system
(modelled as empty) and raises FileNotFoundError. -/
def handleUnits : PVal → Except PTErr Bool
  | PVal.vbool b => Except.ok b
  | PVal.vnone => Except.ok false
  | PVal.vint n => Except.ok (n != 0)
  | PVal.vstr str => Except.error (PTErr.fileNotFound str)

/-- One iteration of the `ptsu` loop (param_track.py lines 229-257).
Reaching the non-reserved branches reads `self.__pt_init_flag__`
(line 241), which raises AttributeError when the attribute was never
assigned. -/
def ptsuStep (s : PTState) (k : String) (v : PVal) :
    PTState × List Event × Option PTErr :=
  if k ∈ internalOnlyPtdef then
    (s, [Event.suIgnoredMethod k], none)
  else if k ∈ internalOnlyPtvar then
    if k.toList.head? = some '_' then (s, [Event.suIgnoredPrivate k], none)
    else
      match v with
      | PVal.vbool b => (setPtFlag s k b, [Event.suSetFlag k], none)
      | _ => (s, [Event.suFlagNotBool k], none)
  else
    match s.initFlag with
    | none => (s, [], some (PTErr.attributeError "__pt_init_flag__"))
    | some flag =>
      if flag then
        ({s with values := aset s.values k v, pardict := aset s.pardict k PDesc.selfType},
         [Event.suInitParam k], none)
      else
        match alookup s.pardict k with
        | some d =>
          if PDesc.ty (pytype v) = d then
            ({s with values := aset s.values k v}, [Event.suReplaceSame k], none)
          else
            ({s with values := aset s.values k v}, [Event.suReplaceDiff k], none)
        | none =>
          ({s with values := aset s.values k v, pardict := aset s.pardict k (unitsType v)},
           [Event.suAdd k], none)

/-- Sequential processing of a kwargs batch, one step per pair, stopping
at the first raise and keeping the mutations already applied (each
Python method loops over `kwargs.items()` with no rollback). -/
def runBatch (step : PTState → String → PVal → PTState × List Event × Option PTErr) :
    PTState → List (String × PVal) → PTState × List Event × Option PTErr
  | s, [] => (s, [], none)
  | s, (k, v) :: rest =>
    match step s k v with
    | (s1, evs, some e) => (s1, evs, some e)
    | (s1, evs, none) =>
      match runBatch step s1 rest with
      | (s2, evs2, err2) => (s2, evs ++ evs2, err2)

/-- `ptset` / `_pt_set` over a kwargs batch (param_track.py
lines 135-177). -/
def ptset (s : PTState) (ps : List (String × PVal)) :
    PTState × List Event × Option PTErr :=
  runBatch ptsetStep s ps

/-- `ptadd` over a kwargs batch (param_track.py lines 179-203). -/
def ptadd (s : PTState) (ps : List (String × PVal)) :
    PTState × List Event × Option PTErr :=
  runBatch ptaddStep s ps

/-- The `ptverbose` pop of `ptsu` (param_track.py lines 218-220):
`self.ptverbose = bool(kwargs.pop('ptverbose'))`. -/
def suPopVerbose (s : PTState) (ps : List (String × PVal)) : PTState × List Event :=
  match alookup ps "ptverbose" with
  | some v => ({s with ptverbose := truthy v}, [Event.suSetVerbose])
  | none => (s, [])

/-- The `ptnote` pop of `ptsu` (param_track.py lines 221-223):
`self.ptnote = bool(kwargs.pop('ptnote'))` — the note is coerced to a
bool by truthiness. -/
def suPopNote (s : PTState) (ps : List (String × PVal)) : PTState × List Event :=
  match alookup ps "ptnote" with
  | some v => ({s with ptnote := truthy v}, [Event.suSetNote])
  | none => (s, [])

/-- The `ptsetunits` pop of `ptsu` (param_track.py lines 224-227):
`__ptu__.handle_units(...)` then `self.ptsetunits = __ptu__.use_units`. -/
def suPopUnits (s : PTState) (ps : List (String × PVal)) :
    PTState × List Event × Option PTErr :=
  match alookup ps "ptsetunits" with
  | some v =>
    match handleUnits v with
    | Except.ok b => ({s with useUnits := b, ptsetunits := b}, [Event.suSetUnits], none)
    | Except.error e => (s, [], some e)
  | none => (s, [], none)

/-- The three pops of `ptsu` in their fixed order (param_track.py
lines 218-227); the possible raise comes from `handle_units`. -/
def suPops (s : PTState) (ps : List (String × PVal)) :
    PTState × List Event × Option PTErr :=
  match suPopVerbose s ps with
  | (s1, e1) =>
    match suPopNote s1 ps with
    | (s2, e2) =>
      match suPopUnits s2 ps with
      | (s3, e3, err) => (s3, e1 ++ e2 ++ e3, err)

/-- `ptsu` over a kwargs batch (param_track.py lines 205-257): the three
pops run first in their fixed order, then the loop over the remaining
pairs. -/
def ptsu (s : PTState) (ps : List (String × PVal)) :
    PTState × List Event × Option PTErr :=
  match suPops s ps with
  | (s3, evs, some e) => (s3, evs, some e)
  | (s3, evs, none) =>
    match runBatch ptsuStep s3
        (aerase (aerase (aerase ps "ptverbose") "ptnote") "ptsetunits") with
    | (s4, evs4, err4) => (s4, evs ++ evs4, err4)

/-- `ptinit` on an explicit key list (param_track.py lines 93-133, list
branch, default `use_types=False`): log the initialization, set
`__pt_init_flag__` to True, route `{key: default}` pairs through
`ptsu`, then reset the flag to False.  If `ptsu` raises, the flag reset
of line 133 is not reached. -/
def ptinit (s : PTState) (keys : List String) (dflt : PVal) :
    PTState × List Event × Option PTErr :=
  match ptsu {s with initFlag := some true} (keys.map (fun k => (k, dflt))) with
  | (s2, evs, some e) => (s2, Event.initFrom :: evs, some e)
  | (s2, evs, none) => ({s2 with initFlag := some false}, Event.initFrom :: evs, none)

/-- One iteration of the inner `ptdel` loop (param_track.py
lines 295-303).  The log message of line 299 evaluates
`getattr(self, k)` before `delattr`, so a declared key with no
attribute would raise AttributeError there. -/
def ptdelStep (s : PTState) (k : String) : PTState × List Event × Option PTErr :=
  if k ∈ internalOnlyPtvar ∨ k ∈ internalOnlyPtdef then
    (s, [Event.delInternalIgnored k], none)
  else
    match alookup s.pardict k with
    | some _ =>
      match alookup s.values k with
      | some _ =>
        ({s with values := aerase s.values k, pardict := aerase s.pardict k},
         [Event.deleted k], none)
      | none => (s, [], some (PTErr.attributeError k))
    | none => (s, [Event.delUnknownIgnored k], none)

/-- `ptdel` over a list of parameter names (the per-name core of
param_track.py lines 277-303; the csv/list argument splitting reduces
to such a list). -/
def ptdel : PTState → List String → PTState × List Event × Option PTErr
  | s, [] => (s, [], none)
  | s, k :: rest =>
    match ptdelStep s k with
    | (s1, evs, some e) => (s1, evs, some e)
    | (s1, evs, none) =>
      match ptdel s1 rest with
      | (s2, evs2, err2) => (s2, evs ++ evs2, err2)

/-- `ptget` without a caller default (param_track.py lines 259-275):
return the attribute if the name is declared, else raise.  The
`getattr(self, key)` of line 272 would itself raise AttributeError if
the declared name had no attribute. -/
def ptget (s : PTState) (k : String) : Except PTErr PVal :=
  match alookup s.pardict k with
  | some _ =>
    match alookup s.values k with
    | some v => Except.ok v
    | none => Except.error (PTErr.attributeError k)
  | none => Except.error (PTErr.parameterNotFound k)

/-- `ptget` with a caller-supplied default (param_track.py line 275). -/
def ptgetD (s : PTState) (k : String) (dflt : PVal) : Except PTErr PVal :=
  match alookup s.pardict k with
  | some _ =>
    match alookup s.values k with
    | some v => Except.ok v
    | none => Except.error (PTErr.attributeError k)
  | none => Except.ok dflt

/-- A seed state for the constructor: all fields the `Parameters`
attributes that do not yet exist before `__init__` assigns them; every
flag field is overwritten by the constructor's `ptsu` call below, and
`__pt_init_flag__` is never assigned by the constructor, hence `none`. -/
def ctorSeed : PTState :=
  { values := [], pardict := [], ptnote := false, ptstrict := false, pterr := false,
    ptverbose := false, pttype := false, pttypeerr := false, ptsetunits := false,
    useUnits := false, initFlag := none }

/-- `Parameters.__init__` with the default keyword arguments and the
given extra kwargs (param_track.py lines 27-88, with the default
`ptinit='__ignore__'` so `ptinit` is not run): the flag defaults are
routed through `ptsu`, `_internal_pardict` is set to `{}`, and the
extra kwargs are routed through `ptadd`.  Note that `__pt_init_flag__`
is never assigned on this path. -/
def mkParameters (kwargs : List (String × PVal)) :
    PTState × List Event × Option PTErr :=
  let r0 := ptsu ctorSeed
    [("ptnote", PVal.vstr "Parameter tracker class"), ("ptstrict", PVal.vbool true),
     ("pterr", PVal.vbool false), ("ptverbose", PVal.vbool true),
     ("pttype", PVal.vbool false), ("pttypeerr", PVal.vbool false),
     ("ptsetunits", PVal.vbool false)]
  ptadd {r0.1 with pardict := [], values := []} kwargs

/-- The pairing invariant of the store (spec section 3): the names
holding a value and the names in the declared mapping are the same, in
the same dictionary order, and without duplicates. -/
def paired (s : PTState) : Prop :=
  keysOf s.values = keysOf s.pardict ∧ (keysOf s.pardict).Nodup

instance : DecidablePred paired := fun s => by
  unfold paired
  infer_instance

/-- A store holding one integer-typed parameter `a = 5`, with type
checking and raise-on-mismatch both on. -/
def c1State : PTState :=
  { values := [("a", PVal.vint 5)], pardict := [("a", PDesc.ty PType.intT)],
    ptnote := true, ptstrict := true, pterr := false, ptverbose := true,
    pttype := true, pttypeerr := true, ptsetunits := false, useUnits := false,
    initFlag := some false }

/-- A store holding one integer-typed parameter `a = 5`, with type
checking on but raise-on-mismatch off. -/
def c2State : PTState :=
  { values := [("a", PVal.vint 5)], pardict := [("a", PDesc.ty PType.intT)],
    ptnote := true, ptstrict := true, pterr := false, ptverbose := true,
    pttype := true, pttypeerr := false, ptsetunits := false, useUnits := false,
    initFlag := some false }

/-- An empty strict store with raise-on-unknown off. -/
def c3State : PTState :=
  { values := [], pardict := [], ptnote := true, ptstrict := true, pterr := false,
    ptverbose := true, pttype := false, pttypeerr := false, ptsetunits := false,
    useUnits := false, initFlag := some false }

/-- A store with the verbosity flag off, used to show that a superuser
call with a non-boolean verbosity value still flips the flag. -/
def c4State : PTState :=
  { values := [], pardict := [], ptnote := true, ptstrict := true, pterr := false,
    ptverbose := false, pttype := false, pttypeerr := false, ptsetunits := false,
    useUnits := false, initFlag := some false }

/-- A strict store used to exercise the reserved-name scenario. -/
def c5State : PTState :=
  { values := [], pardict := [], ptnote := true, ptstrict := true, pterr := false,
    ptverbose := true, pttype := false, pttypeerr := false, ptsetunits := false,
    useUnits := false, initFlag := some false }

/-- An empty strict store used for the bulk-initialize scenario. -/
def c6State : PTState :=
  { values := [], pardict := [], ptnote := true, ptstrict := true, pterr := false,
    ptverbose := true, pttype := true, pttypeerr := false, ptsetunits := false,
    useUnits := false, initFlag := some false }

/-- An empty strict store with raise-on-unknown on. -/
def c3ErrState : PTState :=
  { values := [], pardict := [], ptnote := true, ptstrict := true, pterr := true,
    ptverbose := true, pttype := false, pttypeerr := false, ptsetunits := false,
    useUnits := false, initFlag := some false }

/-- An empty non-strict store with type checking on and
raise-on-mismatch off, used for the None-typed first commit scenario. -/
def c10State : PTState :=
  { values := [], pardict := [], ptnote := true, ptstrict := false, pterr := false,
    ptverbose := true, pttype := true, pttypeerr := false, ptsetunits := false,
    useUnits := false, initFlag := some false }

/-- A small paired store used as a witness input for the pairing
invariant. -/
def c9State : PTState :=
  { values := [("a", PVal.vint 1), ("b", PVal.vstr "s")],
    pardict := [("a", PDesc.ty PType.intT), ("b", PDesc.ty PType.strT)],
    ptnote := true, ptstrict := true, pterr := false, ptverbose := true,
    pttype := true, pttypeerr := false, ptsetunits := false, useUnits := false,
    initFlag := some false }

theorem runBatch_singleton (step : PTState → String → PVal → PTState × List Event × Option PTErr)
    (s : PTState) (k : String) (v : PVal) :
    runBatch step s [(k, v)] = step s k v := by
  rcases h : step s k v with ⟨s1, evs, err⟩
  cases err <;> simp [runBatch, h]

theorem alookup_aset_self {α : Type} (m : List (String × α)) (k : String) (v : α) :
    alookup (aset m k v) k = some v := by
  induction m with
  | nil => simp [aset, alookup]
  | cons p rest ih =>
    obtain ⟨k1, v1⟩ := p
    by_cases h : k1 = k
    · simp [aset, alookup, h]
    · simp [aset, alookup, h, ih]

theorem alookup_aset_ne {α : Type} (m : List (String × α)) (k : String) (v : α)
    (k2 : String) (h : k2 ≠ k) :
    alookup (aset m k v) k2 = alookup m k2 := by
  induction m with
  | nil => simp [aset, alookup, Ne.symm h]
  | cons p rest ih =>
    obtain ⟨k1, v1⟩ := p
    by_cases h1 : k1 = k
    · subst h1
      simp [aset, alookup, Ne.symm h]
    · simp [aset, alookup, h1, ih]

theorem mem_keysOf_of_alookup {α : Type} (m : List (String × α)) (k : String) {v : α}
    (h : alookup m k = some v) : k ∈ keysOf m := by
  induction m with
  | nil => simp [alookup] at h
  | cons p rest ih =>
    obtain ⟨k1, v1⟩ := p
    by_cases h1 : k1 = k
    · simp [keysOf, h1]
    · simp [alookup, h1] at h
      simp [keysOf] at ih ⊢
      exact Or.inr (ih h)

theorem keysOf_cons {α : Type} (k1 : String) (v1 : α) (l : List (String × α)) :
    keysOf ((k1, v1) :: l) = k1 :: keysOf l := rfl

theorem keysOf_aset {α : Type} (m : List (String × α)) (k : String) (v : α) :
    keysOf (aset m k v) = if k ∈ keysOf m then keysOf m else keysOf m ++ [k] := by
  induction m with
  | nil => simp [aset, keysOf]
  | cons p rest ih =>
    obtain ⟨k1, v1⟩ := p
    by_cases h : k1 = k
    · subst h
      simp [aset, keysOf]
    · have hne : ¬(k = k1) := fun he => h he.symm
      simp only [aset, if_neg h, keysOf_cons, ih]
      by_cases hm : k ∈ keysOf rest
      · rw [if_pos hm, if_pos (by simp [List.mem_cons, hm])]
      · rw [if_neg hm, if_neg (by simp [List.mem_cons, hm, hne])]
        simp

theorem keysOf_aerase {α : Type} (m : List (String × α)) (k : String) :
    keysOf (aerase m k) = (keysOf m).filter (fun x => x ≠ k) := by
  induction m with
  | nil => simp [aerase, keysOf]
  | cons p rest ih =>
    obtain ⟨k1, v1⟩ := p
    by_cases h : k1 = k
    · subst h
      simp only [aerase, List.filter_cons, keysOf_cons, decide_not] at ih ⊢
      simp [ih]
    · simp only [aerase, List.filter_cons, keysOf_cons, decide_not] at ih ⊢
      simp [keysOf_cons, ih, h]

theorem paired_of_eq (s1 s2 : PTState) (hv : s2.values = s1.values)
    (hp : s2.pardict = s1.pardict) (h : paired s1) : paired s2 := by
  unfold paired at h ⊢
  rw [hv, hp]
  exact h

theorem paired_aset_both (s : PTState) (h : paired s) (k : String) (v : PVal) (d : PDesc) :
    paired {s with values := aset s.values k v, pardict := aset s.pardict k d} := by
  obtain ⟨hk, hn⟩ := h
  constructor
  · show keysOf (aset s.values k v) = keysOf (aset s.pardict k d)
    rw [keysOf_aset, keysOf_aset, hk]
  · show (keysOf (aset s.pardict k d)).Nodup
    rw [keysOf_aset]
    by_cases hm : k ∈ keysOf s.pardict
    · simpa [hm] using hn
    · simp [hm, List.nodup_append, hn]

theorem paired_aset_values (s : PTState) (h : paired s) (k : String) (v : PVal)
    (hm : k ∈ keysOf s.pardict) :
    paired {s with values := aset s.values k v} := by
  obtain ⟨hk, hn⟩ := h
  constructor
  · show keysOf (aset s.values k v) = keysOf s.pardict
    rw [keysOf_aset, hk]
    simp [hm]
  · exact hn

theorem paired_aerase (s : PTState) (h : paired s) (k : String) :
    paired {s with values := aerase s.values k, pardict := aerase s.pardict k} := by
  obtain ⟨hk, hn⟩ := h
  constructor
  · show keysOf (aerase s.values k) = keysOf (aerase s.pardict k)
    rw [keysOf_aerase, keysOf_aerase, hk]
  · show (keysOf (aerase s.pardict k)).Nodup
    rw [keysOf_aerase]
    exact hn.filter _

theorem ptsetStep_paired (s : PTState) (k : String) (v : PVal) (h : paired s) :
    paired (ptsetStep s k v).1 := by
  unfold ptsetStep
  split
  · exact h
  · split
    next d heq =>
      have hm := mem_keysOf_of_alookup s.pardict k heq
      split
      · exact paired_aset_both s h k v (unitsType v)
      · split
        · split
          · split
            · exact paired_aset_values s h k v hm
            · exact paired_aset_values s h k v hm
          · exact paired_aset_both s h k v (unitsType v)
        · exact paired_aset_values s h k v hm
    next heq =>
      split
      · split
        · exact h
        · exact h
      · exact paired_aset_both s h k v (unitsType v)

theorem ptaddStep_paired (s : PTState) (k : String) (v : PVal) (h : paired s) :
    paired (ptaddStep s k v).1 := by
  unfold ptaddStep
  split
  · exact h
  · split
    · exact paired_aset_both s h k v (unitsType v)
    · exact paired_aset_both s h k v (unitsType v)

theorem setPtFlag_paired (s : PTState) (k : String) (b : Bool) (h : paired s) :
    paired (setPtFlag s k b) := by
  unfold setPtFlag
  repeat' split
  all_goals exact h

theorem ptsuStep_paired (s : PTState) (k : String) (v : PVal) (h : paired s) :
    paired (ptsuStep s k v).1 := by
  unfold ptsuStep
  split
  · exact h
  · split
    · split
      · exact h
      · split
        · exact setPtFlag_paired s k _ h
        · exact h
    · split
      · exact h
      · split
        · exact paired_aset_both s h k v PDesc.selfType
        · split
          next d heq =>
            have hm := mem_keysOf_of_alookup s.pardict k heq
            split
            · exact paired_aset_values s h k v hm
            · exact paired_aset_values s h k v hm
          next heq => exact paired_aset_both s h k v (unitsType v)

theorem ptdelStep_paired (s : PTState) (k : String) (h : paired s) :
    paired (ptdelStep s k).1 := by
  unfold ptdelStep
  split
  · exact h
  · split
    · split
      · exact paired_aerase s h k
      · exact h
    · exact h

theorem runBatch_paired (step : PTState → String → PVal → PTState × List Event × Option PTErr)
    (hstep : ∀ s k v, paired s → paired (step s k v).1) :
    ∀ (ps : List (String × PVal)) (s : PTState), paired s → paired (runBatch step s ps).1 := by
  intro ps
  induction ps with
  | nil => intro s h; exact h
  | cons p rest ih =>
    intro s h
    obtain ⟨k, v⟩ := p
    have h1 := hstep s k v h
    rcases heq : step s k v with ⟨s1, evs, err⟩
    rw [heq] at h1
    cases err with
    | none =>
      have h2 := ih s1 h1
      rcases hr : runBatch step s1 rest with ⟨s2, evs2, err2⟩
      rw [hr] at h2
      simp only [runBatch, heq, hr]
      exact h2
    | some e =>
      simp only [runBatch, heq]
      exact h1

theorem ptset_paired (s : PTState) (ps : List (String × PVal)) (h : paired s) :
    paired (ptset s ps).1 :=
  runBatch_paired ptsetStep ptsetStep_paired ps s h

theorem ptadd_paired (s : PTState) (ps : List (String × PVal)) (h : paired s) :
    paired (ptadd s ps).1 :=
  runBatch_paired ptaddStep ptaddStep_paired ps s h

theorem suPopVerbose_fields (s : PTState) (ps : List (String × PVal)) :
    (suPopVerbose s ps).1.values = s.values ∧ (suPopVerbose s ps).1.pardict = s.pardict := by
  unfold suPopVerbose
  cases alookup ps "ptverbose" <;> simp

theorem suPopNote_fields (s : PTState) (ps : List (String × PVal)) :
    (suPopNote s ps).1.values = s.values ∧ (suPopNote s ps).1.pardict = s.pardict := by
  unfold suPopNote
  cases alookup ps "ptnote" <;> simp

theorem suPopUnits_fields (s : PTState) (ps : List (String × PVal)) :
    (suPopUnits s ps).1.values = s.values ∧ (suPopUnits s ps).1.pardict = s.pardict := by
  unfold suPopUnits
  cases halo : alookup ps "ptsetunits"
  · simp
  next v =>
    cases hu : handleUnits v <;> simp [hu]

theorem suPops_fields (s : PTState) (ps : List (String × PVal)) :
    (suPops s ps).1.values = s.values ∧ (suPops s ps).1.pardict = s.pardict := by
  rcases h1 : suPopVerbose s ps with ⟨s1, e1⟩
  rcases h2 : suPopNote s1 ps with ⟨s2, e2⟩
  rcases h3 : suPopUnits s2 ps with ⟨s3, e3, err⟩
  have f1 := suPopVerbose_fields s ps
  have f2 := suPopNote_fields s1 ps
  have f3 := suPopUnits_fields s2 ps
  rw [h1] at f1
  rw [h2] at f2
  rw [h3] at f3
  simp only [suPops, h1, h2, h3]
  simp only at f1 f2 f3
  exact ⟨by rw [f3.1, f2.1, f1.1], by rw [f3.2, f2.2, f1.2]⟩

theorem ptsu_paired (s : PTState) (ps : List (String × PVal)) (h : paired s) :
    paired (ptsu s ps).1 := by
  have hf := suPops_fields s ps
  have h3 : paired (suPops s ps).1 := paired_of_eq s _ hf.1 hf.2 h
  unfold ptsu
  rcases hp : suPops s ps with ⟨s3, evs, err⟩
  rw [hp] at h3
  cases err with
  | some e => simp only [hp]; exact h3
  | none =>
    simp only [hp]
    rcases hr : runBatch ptsuStep s3
        (aerase (aerase (aerase ps "ptverbose") "ptnote") "ptsetunits") with ⟨s4, evs4, err4⟩
    have h4 := runBatch_paired ptsuStep ptsuStep_paired
      (aerase (aerase (aerase ps "ptverbose") "ptnote") "ptsetunits") s3 h3
    rw [hr] at h4
    simp only [hr]
    exact h4

theorem ptinit_paired (s : PTState) (keys : List String) (dflt : PVal) (h : paired s) :
    paired (ptinit s keys dflt).1 := by
  have h1 : paired {s with initFlag := some true} := paired_of_eq s _ rfl rfl h
  have h2 := ptsu_paired {s with initFlag := some true} (keys.map (fun k => (k, dflt))) h1
  unfold ptinit
  split
  next s2 evs e hr =>
    rw [hr] at h2
    exact h2
  next s2 evs hr =>
    rw [hr] at h2
    exact paired_of_eq _ _ rfl rfl h2

theorem ptdel_paired (s : PTState) (keys : List String) (h : paired s) :
    paired (ptdel s keys).1 := by
  induction keys generalizing s with
  | nil => exact h
  | cons k rest ih =>
    have h1 := ptdelStep_paired s k h
    rcases heq : ptdelStep s k with ⟨s1, evs, err⟩
    rw [heq] at h1
    cases err with
    | none =>
      have h2 := ih s1 h1
      rcases hr : ptdel s1 rest with ⟨s2, evs2, err2⟩
      rw [hr] at h2
      simp only [ptdel, heq, hr]
      exact h2
    | some e =>
      simp only [ptdel, heq]
      exact h1

theorem mkParameters_paired (kwargs : List (String × PVal)) :
    paired (mkParameters kwargs).1 := by
  unfold mkParameters
  refine ptadd_paired _ kwargs ?_
  constructor <;> simp [keysOf]

/-- C1 counterexample: with checkType and raiseOnTypeMismatch both on,
setting the integer-typed parameter `a` (holding 5) to the string "x"
does raise the TypeMismatch error, but the new value IS committed: the
stored value after the failed call is "x", not the prior 5, refuting
the claim that the stored value is the same after the failed call as
before it. -/
theorem c1_counterexample :
    (ptset c1State [("a", PVal.vstr "x")]).2.2 =
      some (PTErr.typeMismatch "a" (PDesc.ty PType.intT) (PDesc.ty PType.strT)) ∧
    alookup c1State.values "a" = some (PVal.vint 5) ∧
    alookup (ptset c1State [("a", PVal.vstr "x")]).1.values "a" = some (PVal.vstr "x") := by
  decide

/-- C1 (amended): for every declared, typed (non-UNTYPED) parameter, a
`set` with a value whose type differs from the declared type while
checkType and raiseOnTypeMismatch are both true raises a TypeMismatch
error identifying the name, the old type and the new type, and the
declared type is unchanged — but the new value IS committed before the
raise: after the failed call the stored value is the new value. -/
theorem c1_amended (s : PTState) (k : String) (v : PVal) (d : PDesc)
    (hres : ¬(k ∈ internalOnlyPtvar ∨ k ∈ internalOnlyPtdef))
    (hd : alookup s.pardict k = some d)
    (hself : d ≠ PDesc.selfType)
    (hmis : PDesc.ty (pytype v) ≠ d)
    (ht : s.pttype = true) (hte : s.pttypeerr = true) :
    ptset s [(k, v)] =
      ({s with values := aset s.values k v}, [Event.settingExisting k],
        some (PTErr.typeMismatch k d (unitsType v))) := by
  rw [ptset, runBatch_singleton]
  unfold ptsetStep
  rw [if_neg hres, hd]
  simp [hself, hmis, ht, hte]

/-- C1 witness: the amended behavior evaluated on the concrete store
holding the integer parameter `a = 5`. -/
theorem c1_amended_witness :
    ptset c1State [("a", PVal.vstr "x")] =
      ({c1State with values := aset c1State.values "a" (PVal.vstr "x")},
        [Event.settingExisting "a"],
        some (PTErr.typeMismatch "a" (PDesc.ty PType.intT) (unitsType (PVal.vstr "x")))) :=
  c1_amended c1State "a" (PVal.vstr "x") (PDesc.ty PType.intT)
    (by decide) (by decide) (by decide) (by decide) rfl rfl

/-- C2 counterexample: with checkType on and raiseOnTypeMismatch off,
setting the integer-typed parameter `a` (holding 5) to the string "x"
keeps the declared type and emits a retain event without raising, but
the stored value becomes "x": the old stored value is NOT kept,
refuting the claim that both type and value are retained. -/
theorem c2_counterexample :
    (ptset c2State [("a", PVal.vstr "x")]).2.2 = none ∧
    alookup (ptset c2State [("a", PVal.vstr "x")]).1.pardict "a" =
      some (PDesc.ty PType.intT) ∧
    Event.typeRetain "a" ∈ (ptset c2State [("a", PVal.vstr "x")]).2.1 ∧
    alookup c2State.values "a" = some (PVal.vint 5) ∧
    alookup (ptset c2State [("a", PVal.vstr "x")]).1.values "a" = some (PVal.vstr "x") := by
  decide

/-- C2 (amended): for every declared, typed (non-UNTYPED) parameter, a
`set` with a mismatched-type value while checkType is true and
raiseOnTypeMismatch is false keeps the old declared type, emits a
retain event and raises nothing — but the new value IS committed (the
old stored value is overwritten). -/
theorem c2_amended (s : PTState) (k : String) (v : PVal) (d : PDesc)
    (hres : ¬(k ∈ internalOnlyPtvar ∨ k ∈ internalOnlyPtdef))
    (hd : alookup s.pardict k = some d)
    (hself : d ≠ PDesc.selfType)
    (hmis : PDesc.ty (pytype v) ≠ d)
    (ht : s.pttype = true) (hte : s.pttypeerr = false) :
    ptset s [(k, v)] =
      ({s with values := aset s.values k v},
        [Event.settingExisting k, Event.typeRetain k], none) := by
  rw [ptset, runBatch_singleton]
  unfold ptsetStep
  rw [if_neg hres, hd]
  simp [hself, hmis, ht, hte]

/-- C2 witness: the amended behavior evaluated on the concrete store
holding the integer parameter `a = 5` with raise-on-mismatch off. -/
theorem c2_amended_witness :
    ptset c2State [("a", PVal.vstr "x")] =
      ({c2State with values := aset c2State.values "a" (PVal.vstr "x")},
        [Event.settingExisting "a", Event.typeRetain "a"], none) :=
  c2_amended c2State "a" (PVal.vstr "x") (PDesc.ty PType.intT)
    (by decide) (by decide) (by decide) (by decide) rfl rfl

/-- C3: a `set` on a never-declared, non-reserved name in strict mode
raises UnknownParameter when raiseOnUnknown (pterr) is on; when pterr
is off it raises nothing, leaves the store (state record, hence both
the declared mapping and the values) completely unchanged, and emits
exactly the one "ignored, use ptadd" event. -/
theorem c3_unknown_strict (s : PTState) (k : String) (v : PVal)
    (hres : ¬(k ∈ internalOnlyPtvar ∨ k ∈ internalOnlyPtdef))
    (hunk : alookup s.pardict k = none)
    (hstrict : s.ptstrict = true) :
    (s.pterr = true → ptset s [(k, v)] = (s, [], some (PTErr.unknownParameter k))) ∧
    (s.pterr = false → ptset s [(k, v)] = (s, [Event.unknownIgnoredUseAdd k], none)) := by
  constructor <;> intro he <;>
    · rw [ptset, runBatch_singleton]
      unfold ptsetStep
      rw [if_neg hres, hunk]
      simp [hstrict, he]

/-- C3 witness: both halves evaluated on concrete empty strict stores,
with raise-on-unknown on and off respectively. -/
theorem c3_unknown_strict_witness :
    ptset c3ErrState [("q", PVal.vint 1)] =
      (c3ErrState, [], some (PTErr.unknownParameter "q")) ∧
    ptset c3State [("q", PVal.vint 1)] =
      (c3State, [Event.unknownIgnoredUseAdd "q"], none) :=
  ⟨(c3_unknown_strict c3ErrState "q" (PVal.vint 1) (by decide) (by decide) rfl).1 rfl,
   (c3_unknown_strict c3State "q" (PVal.vint 1) (by decide) (by decide) rfl).2 rfl⟩

/-- C4 counterexample: the verbosity flag `ptverbose` is a reserved
flag name, yet a superuser-set with the non-boolean value 1 does not
leave it unchanged: `ptsu` pops it before the loop and applies
`bool(1)`, flipping the flag from False to True (no error, as the code
never validates the popped flags), refuting the claim that a
non-boolean value for a reserved flag leaves the flag unchanged. -/
theorem c4_counterexample :
    c4State.ptverbose = false ∧
    (ptsu c4State [("ptverbose", PVal.vint 1)]).2.2 = none ∧
    (ptsu c4State [("ptverbose", PVal.vint 1)]).1.ptverbose = true := by
  decide

/-- C4 (amended): for the reserved boolean flags that are handled by
the superuser loop (`ptstrict`, `pterr`, `pttype`, `pttypeerr`), a
superuser-set with a non-boolean value leaves the whole state
unchanged, emits one rejection event and raises nothing; the
`ptverbose` and `ptnote` flags are instead popped before the loop and
coerced by truthiness, so non-boolean values change them. -/
theorem c4_amended (s : PTState) (k : String) (v : PVal)
    (hk : k ∈ (["ptstrict", "pterr", "pttype", "pttypeerr"] : List String))
    (hv : ∀ b : Bool, v ≠ PVal.vbool b) :
    ptsu s [(k, v)] = (s, [Event.suFlagNotBool k], none) := by
  fin_cases hk <;> rcases v with _ | b | n | str <;>
    first
      | exact absurd rfl (hv _)
      | rfl

/-- C4 witness: the amended behavior evaluated for the strict-mode flag
with the non-boolean value 7. -/
theorem c4_amended_witness :
    ptsu c4State [("ptstrict", PVal.vint 7)] =
      (c4State, [Event.suFlagNotBool "ptstrict"], none) :=
  c4_amended c4State "ptstrict" (PVal.vint 7) (by decide) (by decide)

/-- C5: `ptset` of the reserved strict-mode flag leaves the state (so
the flag) at its prior value, emits exactly one rejection event and
raises nothing, while `ptsu` with the same pair changes the flag's
value (from true to false here). -/
theorem c5_reserved_flag (s : PTState) (hs : s.ptstrict = true) :
    ptset s [("ptstrict", PVal.vbool false)] =
      (s, [Event.internalIgnoredTrySu "ptstrict"], none) ∧
    ptsu s [("ptstrict", PVal.vbool false)] =
      ({s with ptstrict := false}, [Event.suSetFlag "ptstrict"], none) ∧
    ({s with ptstrict := false}).ptstrict ≠ s.ptstrict := by
  refine ⟨rfl, rfl, ?_⟩
  simp [hs]

/-- C5 witness: the scenario evaluated on a concrete strict store. -/
theorem c5_reserved_flag_witness :
    ptset c5State [("ptstrict", PVal.vbool false)] =
      (c5State, [Event.internalIgnoredTrySu "ptstrict"], none) ∧
    ptsu c5State [("ptstrict", PVal.vbool false)] =
      ({c5State with ptstrict := false}, [Event.suSetFlag "ptstrict"], none) ∧
    ({c5State with ptstrict := false}).ptstrict ≠ c5State.ptstrict :=
  c5_reserved_flag c5State rfl

/-- C6: from any prior store, `ptinit(["a","b"], default=None)` raises
nothing and declares both names with the UNTYPED sentinel (the
instance's own class); a subsequent `ptset({a: 5})` commits 5 and sets
the declared type of `a` to the integer type, while the declared type
of `b` remains the UNTYPED sentinel. -/
theorem c6_bulk_init_then_set (s : PTState) :
    (ptinit s ["a", "b"] PVal.vnone).2.2 = none ∧
    alookup (ptinit s ["a", "b"] PVal.vnone).1.pardict "a" = some PDesc.selfType ∧
    alookup (ptinit s ["a", "b"] PVal.vnone).1.pardict "b" = some PDesc.selfType ∧
    alookup (ptset (ptinit s ["a", "b"] PVal.vnone).1 [("a", PVal.vint 5)]).1.values "a" =
      some (PVal.vint 5) ∧
    alookup (ptset (ptinit s ["a", "b"] PVal.vnone).1 [("a", PVal.vint 5)]).1.pardict "a" =
      some (PDesc.ty PType.intT) ∧
    alookup (ptset (ptinit s ["a", "b"] PVal.vnone).1 [("a", PVal.vint 5)]).1.pardict "b" =
      some PDesc.selfType := by
  have hpar : (ptinit s ["a", "b"] PVal.vnone).1.pardict
      = aset (aset s.pardict "a" PDesc.selfType) "b" PDesc.selfType := rfl
  have herr : (ptinit s ["a", "b"] PVal.vnone).2.2 = none := rfl
  have halo_a : alookup (ptinit s ["a", "b"] PVal.vnone).1.pardict "a" = some PDesc.selfType := by
    rw [hpar, alookup_aset_ne _ _ _ _ (by decide), alookup_aset_self]
  have halo_b : alookup (ptinit s ["a", "b"] PVal.vnone).1.pardict "b" = some PDesc.selfType := by
    rw [hpar, alookup_aset_self]
  have hset : ptset (ptinit s ["a", "b"] PVal.vnone).1 [("a", PVal.vint 5)] =
      ({(ptinit s ["a", "b"] PVal.vnone).1 with
          values := aset (ptinit s ["a", "b"] PVal.vnone).1.values "a" (PVal.vint 5),
          pardict := aset (ptinit s ["a", "b"] PVal.vnone).1.pardict "a" (PDesc.ty PType.intT)},
        [Event.settingExisting "a", Event.typeInitialized "a"], none) := by
    rw [ptset, runBatch_singleton]
    unfold ptsetStep
    rw [if_neg (by decide), halo_a]
    simp [unitsType, pytype]
  refine ⟨herr, halo_a, halo_b, ?_, ?_, ?_⟩
  · rw [hset]
    exact alookup_aset_self _ _ _
  · rw [hset]
    exact alookup_aset_self _ _ _
  · rw [hset]
    show alookup
      (aset (ptinit s ["a", "b"] PVal.vnone).1.pardict "a" (PDesc.ty PType.intT)) "b"
      = some PDesc.selfType
    rw [alookup_aset_ne _ _ _ _ (by decide)]
    exact halo_b

/-- C6 witness: the bulk-initialize scenario evaluated from a concrete
empty store. -/
theorem c6_bulk_init_then_set_witness :
    (ptinit c6State ["a", "b"] PVal.vnone).2.2 = none ∧
    alookup (ptinit c6State ["a", "b"] PVal.vnone).1.pardict "a" = some PDesc.selfType ∧
    alookup (ptinit c6State ["a", "b"] PVal.vnone).1.pardict "b" = some PDesc.selfType ∧
    alookup (ptset (ptinit c6State ["a", "b"] PVal.vnone).1 [("a", PVal.vint 5)]).1.values "a" =
      some (PVal.vint 5) ∧
    alookup (ptset (ptinit c6State ["a", "b"] PVal.vnone).1 [("a", PVal.vint 5)]).1.pardict "a" =
      some (PDesc.ty PType.intT) ∧
    alookup (ptset (ptinit c6State ["a", "b"] PVal.vnone).1 [("a", PVal.vint 5)]).1.pardict "b" =
      some PDesc.selfType :=
  c6_bulk_init_then_set c6State

/-- C7: for every non-reserved name and every value, `ptadd({name: v})`
followed by `ptget(name)` returns exactly `v`, whether or not the name
was previously declared (from any prior store state). -/
theorem c7_add_get_roundtrip (s : PTState) (k : String) (v : PVal)
    (hres : ¬(k ∈ internalOnlyPtvar ∨ k ∈ internalOnlyPtdef)) :
    ptget (ptadd s [(k, v)]).1 k = Except.ok v := by
  have hstep : (ptadd s [(k, v)]).1 =
      {s with values := aset s.values k v, pardict := aset s.pardict k (unitsType v)} := by
    rw [ptadd, runBatch_singleton]
    unfold ptaddStep
    rw [if_neg hres]
    cases halo : alookup s.pardict k <;> simp
  rw [hstep]
  simp [ptget, alookup_aset_self]

/-- C7 witness: the round trip evaluated for name "x" and value 7 on a
concrete store. -/
theorem c7_add_get_roundtrip_witness :
    ptget (ptadd c9State [("x", PVal.vint 7)]).1 "x" = Except.ok (PVal.vint 7) :=
  c7_add_get_roundtrip c9State "x" (PVal.vint 7) (by decide)

/-- C8 (code-bug evidence): on a store built by the constructor
`Parameters(x=5)` (which never assigns `__pt_init_flag__`), the
superuser-set of the existing non-flag parameter `x` raises an
AttributeError when the loop reads `self.__pt_init_flag__`
(param_track.py line 241), contradicting the claim (and the method's
own docstring "with little checking and no errors") that superuser-set
never raises for existing non-flag names. -/
theorem c8_su_attribute_error :
    alookup (mkParameters [("x", PVal.vint 5)]).1.pardict "x" =
      some (PDesc.ty PType.intT) ∧
    (ptsu (mkParameters [("x", PVal.vint 5)]).1 [("x", PVal.vint 6)]).2.2 =
      some (PTErr.attributeError "__pt_init_flag__") := by
  decide

/-- C9: the key-pairing invariant — the set of names holding a value
and the set of names in the declared-type mapping coincide (same keys
in the same order, no duplicates) — holds of a freshly constructed
store and is preserved by every mutation entry point: set, add,
superuser-set, bulk-initialize and delete, whatever their arguments
and whether or not they raise. -/
theorem c9_pairing_invariant (s : PTState) (h : paired s)
    (ps : List (String × PVal)) (keys : List String) (dflt : PVal) :
    paired (ptset s ps).1 ∧ paired (ptadd s ps).1 ∧ paired (ptsu s ps).1 ∧
    paired (ptinit s keys dflt).1 ∧ paired (ptdel s keys).1 ∧
    paired (mkParameters ps).1 :=
  ⟨ptset_paired s ps h, ptadd_paired s ps h, ptsu_paired s ps h,
   ptinit_paired s keys dflt h, ptdel_paired s keys h, mkParameters_paired ps⟩

/-- C9 witness: the invariant preservation evaluated on a concrete
two-parameter paired store with a concrete batch and key list. -/
theorem c9_pairing_invariant_witness :
    paired (ptset c9State [("a", PVal.vint 2), ("c", PVal.vstr "y")]).1 ∧
    paired (ptadd c9State [("a", PVal.vint 2), ("c", PVal.vstr "y")]).1 ∧
    paired (ptsu c9State [("a", PVal.vint 2), ("c", PVal.vstr "y")]).1 ∧
    paired (ptinit c9State ["a", "q"] PVal.vnone).1 ∧
    paired (ptdel c9State ["a", "q"]).1 ∧
    paired (mkParameters [("a", PVal.vint 2), ("c", PVal.vstr "y")]).1 :=
  c9_pairing_invariant c9State (by decide)
    [("a", PVal.vint 2), ("c", PVal.vstr "y")] ["a", "q"] PVal.vnone

/-- C10: when the first committed value of a non-reserved name is None
(via `ptadd`, or via non-strict `ptset` on an undeclared name), the
declared type recorded in the mapping is the None value itself
(`PDesc.pnone`), not the UNTYPED sentinel and not a none-type tag; and
a later `ptset` of any non-None value on such a name is routed through
the type-mismatch policy — raise when checkType and raiseOnTypeMismatch
are on, retain the type with a retain event when only checkType is on,
silently adopt the new type when checkType is off — never through the
type-initialization path. -/
theorem c10_none_first_commit (s : PTState) (k : String) (v : PVal)
    (hres : ¬(k ∈ internalOnlyPtvar ∨ k ∈ internalOnlyPtdef))
    (hv : v ≠ PVal.vnone) :
    alookup (ptadd s [(k, PVal.vnone)]).1.pardict k = some PDesc.pnone ∧
    (s.ptstrict = false → alookup s.pardict k = none →
      alookup (ptset s [(k, PVal.vnone)]).1.pardict k = some PDesc.pnone) ∧
    (∀ s1 : PTState, alookup s1.pardict k = some PDesc.pnone →
      ((s1.pttype = true → s1.pttypeerr = true →
        ptset s1 [(k, v)] =
          ({s1 with values := aset s1.values k v}, [Event.settingExisting k],
            some (PTErr.typeMismatch k PDesc.pnone (unitsType v)))) ∧
       (s1.pttype = true → s1.pttypeerr = false →
        ptset s1 [(k, v)] =
          ({s1 with values := aset s1.values k v},
            [Event.settingExisting k, Event.typeRetain k], none)) ∧
       (s1.pttype = false →
        ptset s1 [(k, v)] =
          ({s1 with
              values := aset s1.values k v,
              pardict := aset s1.pardict k (unitsType v)},
            [Event.settingExisting k, Event.typeReset k], none)))) := by
  have hmis : PDesc.ty (pytype v) ≠ PDesc.pnone := by simp
  have hself : PDesc.pnone ≠ PDesc.selfType := by simp
  refine ⟨?_, ?_, ?_⟩
  · rw [ptadd, runBatch_singleton]
    unfold ptaddStep
    rw [if_neg hres]
    cases halo : alookup s.pardict k <;>
      · simp only []
        rw [show unitsType PVal.vnone = PDesc.pnone from rfl]
        exact alookup_aset_self _ _ _
  · intro hstrict hnone
    rw [ptset, runBatch_singleton]
    unfold ptsetStep
    rw [if_neg hres, hnone]
    simp only [hstrict]
    rw [show unitsType PVal.vnone = PDesc.pnone from rfl]
    simp [alookup_aset_self]
  · intro s1 halo1
    refine ⟨?_, ?_, ?_⟩ <;> intro ht <;> try intro hte
    · exact c1_amended s1 k v PDesc.pnone hres halo1 hself hmis ht hte
    · exact c2_amended s1 k v PDesc.pnone hres halo1 hself hmis ht hte
    · rw [ptset, runBatch_singleton]
      unfold ptsetStep
      rw [if_neg hres, halo1]
      simp [hself, hmis, ht]

/-- C10 witness: the None-first-commit behavior evaluated for name "x"
on a concrete store with checkType on and raise off: after
`ptadd({x: None})` the declared type is the None object, and
`ptset({x: 3})` goes through the retain branch of the mismatch
policy. -/
theorem c10_none_first_commit_witness :
    alookup (ptadd c10State [("x", PVal.vnone)]).1.pardict "x" = some PDesc.pnone ∧
    ptset (ptadd c10State [("x", PVal.vnone)]).1 [("x", PVal.vint 3)] =
      ({(ptadd c10State [("x", PVal.vnone)]).1 with
          values := aset (ptadd c10State [("x", PVal.vnone)]).1.values "x" (PVal.vint 3)},
        [Event.settingExisting "x", Event.typeRetain "x"], none) := by
  have h := c10_none_first_commit c10State "x" (PVal.vint 3) (by decide) (by decide)
  exact ⟨h.1, (h.2.2 _ h.1).2.1 rfl rfl⟩

end ParamTrack
